import Mathlib

/-!
Verification of the MediaFusion combined playlist parser
(`scrapers/combined_playlist_parser.py`).

The parser is embedded shallowly: the per-record processing of
`CombinedPlaylistParser` becomes pure state-passing functions, the Redis
event cache becomes an explicit association list together with a sorted
index, external collaborators (the fuzzy-ratio library, the
natural-language date search, the HTTP fetch outcomes and the playlist
decoder) become function parameters, and the two classification regexes
are hand-compiled character matchers with the same search semantics.
-/

/-! ## Character and string helpers (Python `str.strip`, `re \s`, `re \w`) -/

/-- Python whitespace characters recognised by `str.strip` and `\s`
(ASCII fragment: space, tab, newline, carriage return, vertical tab, form feed). -/
def isPySpace (c : Char) : Bool :=
  c = ' ' || c = '\t' || c = '\n' || c = '\r' || c = Char.ofNat 11 || c = Char.ofNat 12

def isDigitC (c : Char) : Bool :=
  '0' ≤ c && c ≤ '9'

/-- Word character for the regex `\b` boundary (`[A-Za-z0-9_]`). -/
def isWordC (c : Char) : Bool :=
  isDigitC c || ('a' ≤ c && c ≤ 'z') || ('A' ≤ c && c ≤ 'Z') || c = '_'

def toLowerC (c : Char) : Char :=
  if 'A' ≤ c && c ≤ 'Z' then Char.ofNat (c.toNat + 32) else c

/-- Python `str.strip()` on a character list. -/
def pyStripL (l : List Char) : List Char :=
  ((l.dropWhile isPySpace).reverse.dropWhile isPySpace).reverse

/-- Python `str.strip()`. -/
def pyStrip (s : String) : String :=
  String.mk (pyStripL s.toList)

/-- Python `re.sub(r"\s+", " ", s)`: collapse each maximal whitespace run
into a single space. -/
def collapseWsL : List Char → List Char
  | [] => []
  | [c] => if isPySpace c then [' '] else [c]
  | c :: d :: rest =>
    if isPySpace c then
      if isPySpace d then collapseWsL (d :: rest)
      else ' ' :: collapseWsL (d :: rest)
    else c :: collapseWsL (d :: rest)

def collapseWs (s : String) : String :=
  String.mk (collapseWsL s.toList)

/-- Does `hay` start with `pat`? -/
def startsWithL : List Char → List Char → Bool
  | _, [] => true
  | [], _ :: _ => false
  | c :: cs, p :: ps => c = p && startsWithL cs ps

/-- Substring containment, used for Python's `"group-title" not in line`. -/
def containsSub : List Char → List Char → Bool
  | [], pat => pat.isEmpty
  | c :: t, pat => startsWithL (c :: t) pat || containsSub t pat

/-- Python `re.split("[,;|]", s)`: split on every occurrence of one of the
separator characters, keeping empty pieces. -/
def splitAny (seps : List Char) : List Char → List (List Char)
  | [] => [[]]
  | c :: rest =>
    let r := splitAny seps rest
    if seps.contains c then [] :: r
    else
      match r with
      | [] => [[c]]
      | h :: t => (c :: h) :: t

/-! ## The two classification regexes of `CombinedPlaylistParser.run`

`date_pattern`:
  `\d{1,2}[\x2f-]\d{1,2}[\x2f-]\d{2,4}
   | \b(?:Jan|Feb|Mar|Apr|May|Jun|Jul|Aug|Sep|Oct|Nov|Dec)\b[ -]\d{1,2}[, -]\d{4}`
  with `re.IGNORECASE`.

`time_pattern`:
  `\d{1,2}:\d{2}(?:\d{2})?\s*(?:AM|PM|ET|EST|EDT|UTC)?` with `re.IGNORECASE`.

Only `re.search` truthiness is used by the code, so the matchers decide
existence of a match; bounded quantifiers are expanded into the finitely
many split choices, which coincides with backtracking existence. -/

/-- Drop exactly `n` leading digits, or fail. -/
def dropDigits : Nat → List Char → Option (List Char)
  | 0, l => some l
  | _ + 1, [] => none
  | n + 1, c :: rest => if isDigitC c then dropDigits n rest else none

/-- One `[\x2f-]` separator. -/
def dropSlashDash : List Char → Option (List Char)
  | [] => none
  | c :: rest => if c = '/' || c = '-' then some rest else none

/-- First alternative `\d{1,2}[\x2f-]\d{1,2}[\x2f-]\d{2,4}` matched at the head of
`l`; for search existence the trailing `\d{2,4}` needs only its two mandatory
digits. -/
def matchSlashDate (l : List Char) : Bool :=
  [1, 2].any fun k1 =>
    [1, 2].any fun k2 =>
      ((((dropDigits k1 l).bind dropSlashDash).bind
          (dropDigits k2)).bind dropSlashDash).bind (dropDigits 2) |>.isSome

def monthNames : List (List Char) :=
  [['j','a','n'], ['f','e','b'], ['m','a','r'], ['a','p','r'],
   ['m','a','y'], ['j','u','n'], ['j','u','l'], ['a','u','g'],
   ['s','e','p'], ['o','c','t'], ['n','o','v'], ['d','e','c']]

/-- Case-insensitive three-letter month token at the head of `l`. -/
def dropMonth : List Char → Option (List Char)
  | a :: b :: c :: rest =>
    if monthNames.contains [toLowerC a, toLowerC b, toLowerC c] then some rest
    else none
  | _ => none

/-- Second alternative
`\b(?:Jan|...|Dec)\b[ -]\d{1,2}[, -]\d{4}` matched at the head of `l`,
`prev` being the character before this position (`none` at the start of the
string) for the leading `\b`. -/
def matchMonthDate (prev : Option Char) (l : List Char) : Bool :=
  (match prev with
   | none => true
   | some p => !isWordC p) &&
  (match dropMonth l with
   | none => false
   | some l1 =>
     match l1 with
     | [] => false
     | c :: l2 =>
       !isWordC c && (c = ' ' || c = '-') &&
       ([1, 2].any fun k =>
         match dropDigits k l2 with
         | none => false
         | some l3 =>
           match l3 with
           | [] => false
           | d :: l4 =>
             (d = ',' || d = ' ' || d = '-') && (dropDigits 4 l4).isSome))

def dateSearchAux (prev : Option Char) : List Char → Bool
  | [] => false
  | c :: rest =>
    matchSlashDate (c :: rest) || matchMonthDate prev (c :: rest) ||
      dateSearchAux (some c) rest

/-- `date_pattern.search(s)` truthiness. -/
def dateSearch (s : String) : Bool :=
  dateSearchAux none s.toList

/-- `\d{1,2}:\d{2}` matched at the head of `l`; the remaining components
`(?:\d{2})?`, `\s*` and `(?:AM|PM|ET|EST|EDT|UTC)?` of `time_pattern` all
match the empty string, so they never affect search existence. -/
def matchTimeAt (l : List Char) : Bool :=
  [1, 2].any fun k =>
    match dropDigits k l with
    | none => false
    | some l1 =>
      match l1 with
      | [] => false
      | c :: l2 => c = ':' && (dropDigits 2 l2).isSome

def timeSearchAux : List Char → Bool
  | [] => false
  | c :: rest => matchTimeAt (c :: rest) || timeSearchAux rest

/-- `time_pattern.search(s)` truthiness. -/
def timeSearch (s : String) : Bool :=
  timeSearchAux s.toList

/-- `is_event = date_pattern.search(raw_name) and time_pattern.search(raw_name)`
on the already-stripped name. -/
def isEventName (rawName : String) : Bool :=
  dateSearch rawName && timeSearch rawName

/-! ## Data model

Mirrors the fields the parser reads and writes: `models.TVStreams`,
`MediaFusionEventsMetaData`, `schemas.TVMetaData`, the
`schemas.TVMetaProjection` (id + title) used for the fuzzy pass, and the
parsed channel records produced by the external `ipytv` decoder. -/

structure ChannelRecord where
  name : String
  url : String
  attributes : List (String × String)
deriving DecidableEq

/-- `channel.attributes.get(key)`. -/
def attrGet (r : ChannelRecord) (key : String) : Option String :=
  r.attributes.lookup key

/-- `channel.attributes.get(key, default)`. -/
def attrGetD (r : ChannelRecord) (key default : String) : String :=
  (attrGet r key).getD default

structure TVStreams where
  meta_id : String
  name : String
  url : String
  source : String
  is_working : Bool
deriving DecidableEq

structure MediaFusionEventsMetaData where
  id : String
  title : String
  event_start_timestamp : Int
  poster : Option String
  genres : List String
  is_add_title_to_poster : Bool
  streams : List TVStreams
deriving DecidableEq

structure TVMetaData where
  id : String
  title : String
  poster : Option String
  logo : Option String
  genres : List String
  streams : List TVStreams
deriving DecidableEq

/-- Projection of an existing TV channel (`schemas.TVMetaProjection`):
only id and title are loaded for the fuzzy pass. -/
structure TVMetaProjection where
  id : String
  title : String
deriving DecidableEq

/-- Modelled from the spec: `crypto.get_text_hash` (module `utils/crypto` is
not under `src/`); the spec states the derived id is a stable, deterministic
pure function of the text, so any concrete deterministic hash represents it. -/
def get_text_hash (s : String) : String :=
  toString (s.toList.foldl (fun h c => (h * 31 + c.toNat) % 1000000007) 7)

/-- Modelled from the spec: `validation_helper.is_valid_url` (module
`utils/validation_helper` is not under `src/`); the spec says poster URLs are
kept only when well-formed, otherwise dropped. -/
def is_valid_url (s : String) : Bool :=
  "http://".isPrefixOf s || "https://".isPrefixOf s

/-- `poster_url if validation_helper.is_valid_url(poster_url) else None`
(a missing attribute is not a valid URL). -/
def validPoster : Option String → Option String
  | none => none
  | some u => if is_valid_url u then some u else none

def playlist_source : String := "Combined Playlist"

def FUZZY_MATCH_THRESHOLD : Nat := 90

def TIME_WINDOW_SECONDS : Int := 3600

/-! ## The Redis event cache

`events:all` is the time-sorted global index (member key, score = start
timestamp, kept in index order); the value store maps an event key either to
a value that deserialises (`CacheVal.valid`) or to one on which
`model_validate_json` raises (`CacheVal.malformed`). -/

inductive CacheVal where
  | valid (e : MediaFusionEventsMetaData)
  | malformed
deriving DecidableEq

structure EventCache where
  index : List (String × Int)
  store : List (String × CacheVal)
deriving DecidableEq

def cacheGet (c : EventCache) (k : String) : Option CacheVal :=
  c.store.lookup k

def setAssoc (store : List (String × CacheVal)) (k : String) (v : CacheVal) :
    List (String × CacheVal) :=
  match store with
  | [] => [(k, v)]
  | (k', v') :: rest =>
    if k' = k then (k, v) :: rest else (k', v') :: setAssoc rest k v

def cacheSet (c : EventCache) (k : String) (v : CacheVal) : EventCache :=
  { c with store := setAssoc c.store k v }

/-- A write issued to the cache: `set(key, value, ex=ttl)` or
`zadd(index_key, member=key, score)`. -/
inductive CacheOp where
  | set (key : String) (value : MediaFusionEventsMetaData) (ttl : Int)
  | zadd (index_key : String) (member : String) (score : Int)
deriving DecidableEq

/-! ## Parser state

The mutable counters of `CombinedPlaylistParser`, the in-run batches of
`run`, and the trace of cache writes issued immediately during per-record
processing (the `REDIS_ASYNC_CLIENT.set` in `_process_event`). -/

structure ParserState where
  skipped_duplicate_tv_channels_count : Nat
  added_new_tv_channels_count : Nat
  merged_tv_streams_count : Nat
  unique_channels_in_group : List (String × String)
  channel_batch : List TVMetaData
  new_streams_batch : List TVStreams
  event_list : List MediaFusionEventsMetaData
  immediate_ops : List CacheOp
deriving DecidableEq

def initialState : ParserState :=
  { skipped_duplicate_tv_channels_count := 0
    added_new_tv_channels_count := 0
    merged_tv_streams_count := 0
    unique_channels_in_group := []
    channel_batch := []
    new_streams_batch := []
    event_list := []
    immediate_ops := [] }

/-! ## Channel merge engine (`_process_regular_channel`) -/

/-- `raw_name = channel.name.strip()`. -/
def raw_name_of (r : ChannelRecord) : String :=
  pyStrip r.name

/-- `clean_name = channel.attributes.get(IPTVAttr.TVG_NAME.value, raw_name)`. -/
def clean_name_of (r : ChannelRecord) : String :=
  attrGetD r "tvg-name" (raw_name_of r)

/-- `channel_name = re.sub(r"\s+", " ", clean_name).strip()`. -/
def channel_name_of (r : ChannelRecord) : String :=
  pyStrip (collapseWs (clean_name_of r))

/-- Genre list split from the `group-title` attribute. -/
def genres_of (r : ChannelRecord) : List String :=
  (splitAny [',', ';', '|'] (attrGetD r "group-title" "").toList).map
    fun g => pyStrip (collapseWs (String.mk g))

/-- `channel_id = f"tv.{get_text_hash(channel_name)}"` (line 187). -/
def channel_id_of (r : ChannelRecord) : String :=
  "tv." ++ get_text_hash (channel_name_of r)

/-- First existing channel whose title fuzzy-matches at or above the
threshold (the `for existing_channel in existing_tv_channels_in_db` loop
with its `break`). -/
def findChannelMatch (fuzz_ratio : String → String → Nat) (name : String) :
    List TVMetaProjection → Option TVMetaProjection
  | [] => none
  | c :: rest =>
    if FUZZY_MATCH_THRESHOLD ≤ fuzz_ratio name c.title then some c
    else findChannelMatch fuzz_ratio name rest

def process_regular_channel (fuzz_ratio : String → String → Nat)
    (existing_tv_channels_in_db : List TVMetaProjection)
    (existing_stream_urls : List String)
    (r : ChannelRecord) (st : ParserState) : ParserState :=
  let channel_name := channel_name_of r
  if channel_name.length < 2 then st
  else
    let channel_id := channel_id_of r
    let poster_url := attrGet r "tvg-logo"
    let in_memory_key := (channel_name, r.url)
    if st.unique_channels_in_group.contains in_memory_key then
      { st with skipped_duplicate_tv_channels_count :=
          st.skipped_duplicate_tv_channels_count + 1 }
    else
      let st := { st with unique_channels_in_group :=
          in_memory_key :: st.unique_channels_in_group }
      match findChannelMatch fuzz_ratio channel_name existing_tv_channels_in_db with
      | some existing_channel =>
        if existing_stream_urls.contains r.url then
          { st with skipped_duplicate_tv_channels_count :=
              st.skipped_duplicate_tv_channels_count + 1 }
        else
          { st with
            merged_tv_streams_count := st.merged_tv_streams_count + 1
            new_streams_batch := st.new_streams_batch ++
              [{ meta_id := existing_channel.id
                 name := channel_name
                 url := r.url
                 source := playlist_source
                 is_working := true }] }
      | none =>
        { st with
          added_new_tv_channels_count := st.added_new_tv_channels_count + 1
          channel_batch := st.channel_batch ++
            [{ id := channel_id
               title := channel_name
               poster := validPoster poster_url
               logo := validPoster poster_url
               genres := genres_of r
               streams := [{ meta_id := channel_id
                             name := channel_name
                             url := r.url
                             source := playlist_source
                             is_working := true }] }] }

/-! ## Event merge engine (`_process_event`)

`search_dates` (the `dateparser` collaborator) is a parameter returning the
timestamp of the first hit, `none` when no date is found (the code then
raises `ValueError`, caught by the surrounding handler).  A
`CacheVal.malformed` store entry makes `model_validate_json` raise; the raw
variant propagates that as `Except.error`, and `process_event` is the
`try/except` wrapper that drops the record on any error. -/

/-- Keys returned by
`zrangebyscore("events:all", min=start - 3600, max=start + 3600)`:
the members of the index whose score lies in the closed window, in index
order. -/
def event_candidates (event_start_timestamp : Int) (index : List (String × Int)) :
    List String :=
  (index.filter fun p =>
    decide (event_start_timestamp - TIME_WINDOW_SECONDS ≤ p.2) &&
    decide (p.2 ≤ event_start_timestamp + TIME_WINDOW_SECONDS)).map Prod.fst

/-- TTL used when rewriting a merged event:
`int((existing_event.event_start_timestamp - datetime.now().timestamp()) + 86400)`. -/
def merge_ttl (now : Int) (existing_event : MediaFusionEventsMetaData) : Int :=
  existing_event.event_start_timestamp - now + 86400

/-- The stream appended when merging into a matched existing event. -/
def merged_stream (existing_event : MediaFusionEventsMetaData)
    (raw_name url : String) : TVStreams :=
  { meta_id := existing_event.id
    name := raw_name
    url := url
    source := playlist_source
    is_working := true }

/-- `existing_event.streams.append(new_stream)`: the rewritten event value,
identical to the existing one except for the appended stream. -/
def merged_event (existing_event : MediaFusionEventsMetaData)
    (raw_name url : String) : MediaFusionEventsMetaData :=
  { existing_event with
    streams := existing_event.streams ++ [merged_stream existing_event raw_name url] }

/-- The `for event_key in existing_event_keys` loop: stop at the first
candidate whose stored title fuzzy-matches the incoming name, merging the
incoming URL into it unless already present.  Returns the
`found_duplicate_event` flag with the updated state and cache; a malformed
stored entry raises. -/
def findDuplicateEvent (fuzz_ratio : String → String → Nat) (now : Int)
    (raw_name url : String) :
    List String → ParserState → EventCache →
    Except Unit (Bool × ParserState × EventCache)
  | [], st, cache => .ok (false, st, cache)
  | event_key :: rest, st, cache =>
    match cacheGet cache event_key with
    | none => findDuplicateEvent fuzz_ratio now raw_name url rest st cache
    | some .malformed => .error ()
    | some (.valid existing_event) =>
      if FUZZY_MATCH_THRESHOLD ≤ fuzz_ratio raw_name existing_event.title then
        if existing_event.streams.any (fun s => s.url = url) then
          .ok (true, st, cache)
        else
          let updated := merged_event existing_event raw_name url
          .ok (true,
            { st with immediate_ops := st.immediate_ops ++
                [CacheOp.set event_key updated (merge_ttl now existing_event)] },
            cacheSet cache event_key (.valid updated))
      else findDuplicateEvent fuzz_ratio now raw_name url rest st cache

/-- The brand-new event staged when no duplicate is found in the window:
id from the hashed raw title, the extracted start timestamp, validated
poster, the single group-title genre, and one embedded stream. -/
def new_event_meta (r : ChannelRecord) (event_start_timestamp : Int) :
    MediaFusionEventsMetaData :=
  let raw_name := raw_name_of r
  let event_id := "event" ++ get_text_hash raw_name
  { id := event_id
    title := raw_name
    event_start_timestamp := event_start_timestamp
    poster := validPoster (attrGet r "tvg-logo")
    genres := [pyStrip (attrGetD r "group-title" "Other Sports")]
    is_add_title_to_poster := false
    streams := [{ meta_id := event_id
                  name := raw_name
                  url := r.url
                  source := playlist_source
                  is_working := true }] }

/-- Body of `_process_event` before its `except` clause. -/
def process_event_raw (fuzz_ratio : String → String → Nat)
    (search_dates : String → Option Int) (now : Int)
    (r : ChannelRecord) (st : ParserState) (cache : EventCache) :
    Except Unit (ParserState × EventCache) :=
  let raw_name := raw_name_of r
  match search_dates raw_name with
  | none => .error ()
  | some event_start_timestamp =>
    let existing_event_keys := event_candidates event_start_timestamp cache.index
    match findDuplicateEvent fuzz_ratio now raw_name r.url
        existing_event_keys st cache with
    | .error () => .error ()
    | .ok (found_duplicate_event, st, cache) =>
      if found_duplicate_event then .ok (st, cache)
      else
        .ok ({ st with event_list := st.event_list ++
            [new_event_meta r event_start_timestamp] },
          cache)

/-- `_process_event` with its `except Exception` handler: any failure drops
the record and leaves state and cache untouched (no effect precedes a raise
in the body). -/
def process_event (fuzz_ratio : String → String → Nat)
    (search_dates : String → Option Int) (now : Int)
    (r : ChannelRecord) (st : ParserState) (cache : EventCache) :
    ParserState × EventCache :=
  match process_event_raw fuzz_ratio search_dates now r st cache with
  | .ok result => result
  | .error () => (st, cache)

/-! ## Source fetcher (`_generate_combined_content`)

Each configured source URL yields an outcome: a response with a status code
and body, or a request-level error (timeout, connection failure —
`httpx.RequestError`).  `response.raise_for_status()` raises
`httpx.HTTPStatusError` on a 4xx/5xx status, which is NOT a subclass of
`httpx.RequestError` and therefore escapes the `except` clause. -/

inductive FetchOutcome where
  | ok (status : Nat) (text : String)
  | requestError
deriving DecidableEq

/-- `urlparse(url).path`: the portion after the authority, cut at query or
fragment. -/
def urlPath (url : String) : List Char :=
  let l := url.toList
  let rest :=
    match
      (List.range l.length).find? fun i =>
        startsWithL (l.drop i) [':', '/', '/'] with
    | some i => l.drop (i + 3)
    | none => l
  (rest.dropWhile fun c => c ≠ '/').takeWhile fun c => c ≠ '?' && c ≠ '#'

/-- `os.path.basename` of the URL path. -/
def urlPathBasename (url : String) : String :=
  String.mk ((urlPath url).reverse.takeWhile (fun c => c ≠ '/')).reverse

/-- One `#EXTINF` line, given the default group name of its source: inject
`group-title` when absent. -/
def extinfLine (default_group_name line : String) : String :=
  if containsSub line.toList "group-title".toList then line
  else line.replace "EXTINF:-1"
    ("EXTINF:-1 group-title=\"" ++ default_group_name ++ "\"")

/-- The line-filtering loop over one fetched playlist body. -/
def sourceLines (url text : String) : String :=
  (text.splitOn "\n").foldl
    (fun acc line =>
      if "#EXTINF".isPrefixOf line then
        acc ++ extinfLine (urlPathBasename url) line ++ "\n"
      else if "http".isPrefixOf line then acc ++ line ++ "\n"
      else acc)
    ""

/-- The `for url in self.source_urls` loop: a request error is caught and
the source skipped; an error status makes `raise_for_status` raise an
uncaught `HTTPStatusError`. -/
def fetchLoop : List (String × FetchOutcome) → Except Unit String
  | [] => .ok ""
  | (url, outcome) :: rest =>
    match outcome with
    | .requestError => fetchLoop rest
    | .ok status text =>
      if 400 ≤ status then .error ()
      else
        match fetchLoop rest with
        | .error () => .error ()
        | .ok tail => .ok (sourceLines url text ++ tail)

/-- `_generate_combined_content`, starting from the `"#EXTM3U\n"` header. -/
def generate_combined_content (sources : List (String × FetchOutcome)) :
    Except Unit String :=
  match fetchLoop sources with
  | .error () => .error ()
  | .ok body => .ok ("#EXTM3U\n" ++ body)

/-! ## Per-record dispatch and the main loop of `run` -/

inductive RecordClass where
  | skippedNoUrl
  | event
  | channel
deriving DecidableEq

/-- The dispatch in `run`'s record loop: records with a falsy URL are
skipped before classification; otherwise the dual regex test on the
stripped name decides event versus regular channel. -/
def classifyRecord (r : ChannelRecord) : RecordClass :=
  if r.url = "" then .skippedNoUrl
  else if isEventName (raw_name_of r) then .event
  else .channel

/-- Processing of one record inside `run`'s loop. -/
def processRecord (fuzz_ratio : String → String → Nat)
    (search_dates : String → Option Int) (now : Int)
    (existing_tv_channels_in_db : List TVMetaProjection)
    (existing_stream_urls : List String)
    (acc : ParserState × EventCache) (r : ChannelRecord) :
    ParserState × EventCache :=
  match classifyRecord r with
  | .skippedNoUrl => acc
  | .event => process_event fuzz_ratio search_dates now r acc.1 acc.2
  | .channel =>
    (process_regular_channel fuzz_ratio existing_tv_channels_in_db
      existing_stream_urls r acc.1, acc.2)

/-- The record loop of `run` over the grouped records. -/
def runRecords (fuzz_ratio : String → String → Nat)
    (search_dates : String → Option Int) (now : Int)
    (existing_tv_channels_in_db : List TVMetaProjection)
    (existing_stream_urls : List String)
    (records : List ChannelRecord) (acc : ParserState × EventCache) :
    ParserState × EventCache :=
  records.foldl
    (processRecord fuzz_ratio search_dates now existing_tv_channels_in_db
      existing_stream_urls)
    acc

/-- `channel.attributes.get("group-title", "Uncategorized").strip()`. -/
def groupTitleOf (r : ChannelRecord) : String :=
  pyStrip (attrGetD r "group-title" "Uncategorized")

/-- Group keys in first-appearance order (`collections.defaultdict`
preserves insertion order). -/
def groupKeys (records : List ChannelRecord) : List String :=
  records.foldl
    (fun acc r =>
      if acc.contains (groupTitleOf r) then acc else acc ++ [groupTitleOf r])
    []

/-- The iteration order of `grouped_channels.values()`: records regrouped by
group title, groups in first-appearance order, original order inside each
group. -/
def groupedRecords (records : List ChannelRecord) : List ChannelRecord :=
  (groupKeys records).flatMap fun g =>
    records.filter fun r => groupTitleOf r = g

/-! ## Persistence coordinator (end of `run`) -/

/-- The pipelined writes staged for one new event:
`set(event_key, json, ex=ttl)` plus the global and per-genre `zadd`s, all
guarded by `if ttl > 0`. -/
def eventOps (now : Int) (event : MediaFusionEventsMetaData) : List CacheOp :=
  let event_key := "event:" ++ event.id
  let ttl := event.event_start_timestamp - now + 86400
  if 0 < ttl then
    CacheOp.set event_key event ttl ::
    CacheOp.zadd "events:all" event_key event.event_start_timestamp ::
    event.genres.map fun genre =>
      CacheOp.zadd ("events:genre:" ++ genre) event_key
        event.event_start_timestamp
  else []

/-- The single end-of-run pipeline over `event_list`. -/
def buildEventPipeline (now : Int)
    (event_list : List MediaFusionEventsMetaData) : List CacheOp :=
  event_list.flatMap (eventOps now)

structure RunResult where
  final : ParserState
  cache : EventCache
  pipeline_ops : List CacheOp
deriving DecidableEq

/-- `CombinedPlaylistParser.run`: fetch and combine the sources, decode
(external `ipytv` collaborator, a parameter), group, process every record,
then assemble the single end-of-run event pipeline.  The staged
`new_streams_batch` and `channel_batch` are carried in the final state. -/
def run (fuzz_ratio : String → String → Nat)
    (search_dates : String → Option Int)
    (decode : String → List ChannelRecord) (now : Int)
    (sources : List (String × FetchOutcome))
    (existing_tv_channels_in_db : List TVMetaProjection)
    (existing_stream_urls : List String) (cache : EventCache) :
    Except Unit RunResult :=
  match generate_combined_content sources with
  | .error () => .error ()
  | .ok content =>
    let channels := decode content
    let ordered := groupedRecords channels
    let result := runRecords fuzz_ratio search_dates now
      existing_tv_channels_in_db existing_stream_urls ordered
      (initialState, cache)
    .ok { final := result.1
          cache := result.2
          pipeline_ops := buildEventPipeline now result.1.event_list }

/-! ## Helper lemmas about the event merge path -/

lemma event_candidates_singleton_mem (T s : Int) (k : String)
    (h1 : T - TIME_WINDOW_SECONDS ≤ s) (h2 : s ≤ T + TIME_WINDOW_SECONDS) :
    event_candidates T [(k, s)] = [k] := by
  have h1' : T ≤ s + TIME_WINDOW_SECONDS := by
    simp [TIME_WINDOW_SECONDS] at h1 ⊢; omega
  simp [event_candidates, List.filter, decide_eq_true h1',
    decide_eq_true h1, decide_eq_true h2]

lemma event_candidates_pair_mem (T s1 s2 : Int) (k1 k2 : String)
    (h1 : T - TIME_WINDOW_SECONDS ≤ s1) (h2 : s1 ≤ T + TIME_WINDOW_SECONDS)
    (h3 : T - TIME_WINDOW_SECONDS ≤ s2) (h4 : s2 ≤ T + TIME_WINDOW_SECONDS) :
    event_candidates T [(k1, s1), (k2, s2)] = [k1, k2] := by
  have h1' : T ≤ s1 + TIME_WINDOW_SECONDS := by
    simp [TIME_WINDOW_SECONDS] at h1 ⊢; omega
  have h3' : T ≤ s2 + TIME_WINDOW_SECONDS := by
    simp [TIME_WINDOW_SECONDS] at h3 ⊢; omega
  simp [event_candidates, List.filter, decide_eq_true h1', decide_eq_true h2,
    decide_eq_true h3', decide_eq_true h4]

lemma findDuplicateEvent_cons_valid_merge
    (fuzz_ratio : String → String → Nat) (now : Int) (raw_name url : String)
    (k : String) (rest : List String) (e : MediaFusionEventsMetaData)
    (st : ParserState) (cache : EventCache)
    (hget : cacheGet cache k = some (CacheVal.valid e))
    (hratio : FUZZY_MATCH_THRESHOLD ≤ fuzz_ratio raw_name e.title)
    (hurl : e.streams.any (fun s => s.url = url) = false) :
    findDuplicateEvent fuzz_ratio now raw_name url (k :: rest) st cache =
      .ok (true,
        { st with immediate_ops := st.immediate_ops ++
            [CacheOp.set k (merged_event e raw_name url) (merge_ttl now e)] },
        cacheSet cache k (CacheVal.valid (merged_event e raw_name url))) := by
  simp [findDuplicateEvent, hget, if_pos hratio, hurl]

lemma findDuplicateEvent_cons_valid_skip
    (fuzz_ratio : String → String → Nat) (now : Int) (raw_name url : String)
    (k : String) (rest : List String) (e : MediaFusionEventsMetaData)
    (st : ParserState) (cache : EventCache)
    (hget : cacheGet cache k = some (CacheVal.valid e))
    (hratio : FUZZY_MATCH_THRESHOLD ≤ fuzz_ratio raw_name e.title)
    (hurl : e.streams.any (fun s => s.url = url) = true) :
    findDuplicateEvent fuzz_ratio now raw_name url (k :: rest) st cache =
      .ok (true, st, cache) := by
  simp [findDuplicateEvent, hget, if_pos hratio, hurl]

/-- Schematic merge: a single candidate in the window whose stored entry is
valid, fuzzy-matching, and not yet carrying the incoming URL is rewritten
with the appended stream, the set being issued immediately with the TTL
recomputed from the existing event's own start timestamp. -/
lemma process_event_merge_eq
    (fuzz_ratio : String → String → Nat) (search_dates : String → Option Int)
    (now : Int) (r : ChannelRecord) (st : ParserState)
    (e : MediaFusionEventsMetaData) (k : String) (s T : Int)
    (hsd : search_dates (raw_name_of r) = some T)
    (h1 : T - TIME_WINDOW_SECONDS ≤ s) (h2 : s ≤ T + TIME_WINDOW_SECONDS)
    (hratio : FUZZY_MATCH_THRESHOLD ≤ fuzz_ratio (raw_name_of r) e.title)
    (hurl : e.streams.any (fun x => x.url = r.url) = false) :
    process_event fuzz_ratio search_dates now r st
        ⟨[(k, s)], [(k, CacheVal.valid e)]⟩ =
      ({ st with immediate_ops := st.immediate_ops ++
          [CacheOp.set k (merged_event e (raw_name_of r) r.url)
            (merge_ttl now e)] },
       ⟨[(k, s)], [(k, CacheVal.valid (merged_event e (raw_name_of r) r.url))]⟩) := by
  have hget : cacheGet ⟨[(k, s)], [(k, CacheVal.valid e)]⟩ k =
      some (CacheVal.valid e) := by
    simp [cacheGet, List.lookup]
  have hcand := event_candidates_singleton_mem T s k h1 h2
  have hfind := findDuplicateEvent_cons_valid_merge fuzz_ratio now
    (raw_name_of r) r.url k [] e st ⟨[(k, s)], [(k, CacheVal.valid e)]⟩
    hget hratio hurl
  simp [process_event, process_event_raw, hsd, hcand, hfind,
    cacheSet, setAssoc]

/-- Schematic no-write merge: the matched event already carries the incoming
URL, so nothing is written and nothing changes. -/
lemma process_event_merge_skip_eq
    (fuzz_ratio : String → String → Nat) (search_dates : String → Option Int)
    (now : Int) (r : ChannelRecord) (st : ParserState)
    (e : MediaFusionEventsMetaData) (k : String) (s T : Int)
    (hsd : search_dates (raw_name_of r) = some T)
    (h1 : T - TIME_WINDOW_SECONDS ≤ s) (h2 : s ≤ T + TIME_WINDOW_SECONDS)
    (hratio : FUZZY_MATCH_THRESHOLD ≤ fuzz_ratio (raw_name_of r) e.title)
    (hurl : e.streams.any (fun x => x.url = r.url) = true) :
    process_event fuzz_ratio search_dates now r st
        ⟨[(k, s)], [(k, CacheVal.valid e)]⟩ =
      (st, ⟨[(k, s)], [(k, CacheVal.valid e)]⟩) := by
  have hget : cacheGet ⟨[(k, s)], [(k, CacheVal.valid e)]⟩ k =
      some (CacheVal.valid e) := by
    simp [cacheGet, List.lookup]
  have hcand := event_candidates_singleton_mem T s k h1 h2
  have hfind := findDuplicateEvent_cons_valid_skip fuzz_ratio now
    (raw_name_of r) r.url k [] e st ⟨[(k, s)], [(k, CacheVal.valid e)]⟩
    hget hratio hurl
  simp [process_event, process_event_raw, hsd, hcand, hfind]

/-! ## Claim theorems -/

/-- C4: when a new stream is merged into an existing cached event, only the
streams list changes (exactly one stream appended); title, start timestamp,
poster and genres are preserved; the rewritten entry's TTL is recomputed
from the existing event's original start timestamp, not from the incoming
record's extracted time; and when the incoming URL already equals the URL of
one of the event's streams nothing is written and the cache is unchanged. -/
theorem c4_merge_frame_effect
    (fuzz_ratio : String → String → Nat) (search_dates : String → Option Int)
    (now : Int) (r : ChannelRecord) (st : ParserState)
    (e : MediaFusionEventsMetaData) (k : String) (s T : Int)
    (hsd : search_dates (raw_name_of r) = some T)
    (h1 : T - TIME_WINDOW_SECONDS ≤ s) (h2 : s ≤ T + TIME_WINDOW_SECONDS)
    (hratio : FUZZY_MATCH_THRESHOLD ≤ fuzz_ratio (raw_name_of r) e.title) :
    (merged_event e (raw_name_of r) r.url).title = e.title ∧
    (merged_event e (raw_name_of r) r.url).event_start_timestamp =
      e.event_start_timestamp ∧
    (merged_event e (raw_name_of r) r.url).poster = e.poster ∧
    (merged_event e (raw_name_of r) r.url).genres = e.genres ∧
    (merged_event e (raw_name_of r) r.url).streams =
      e.streams ++ [merged_stream e (raw_name_of r) r.url] ∧
    merge_ttl now e = e.event_start_timestamp - now + 86400 ∧
    (e.streams.any (fun x => x.url = r.url) = false →
      process_event fuzz_ratio search_dates now r st
          ⟨[(k, s)], [(k, CacheVal.valid e)]⟩ =
        ({ st with immediate_ops := st.immediate_ops ++
            [CacheOp.set k (merged_event e (raw_name_of r) r.url)
              (merge_ttl now e)] },
         ⟨[(k, s)],
          [(k, CacheVal.valid (merged_event e (raw_name_of r) r.url))]⟩)) ∧
    (e.streams.any (fun x => x.url = r.url) = true →
      process_event fuzz_ratio search_dates now r st
          ⟨[(k, s)], [(k, CacheVal.valid e)]⟩ =
        (st, ⟨[(k, s)], [(k, CacheVal.valid e)]⟩)) := by
  refine ⟨rfl, rfl, rfl, rfl, rfl, rfl, ?_, ?_⟩
  · intro hurl
    exact process_event_merge_eq fuzz_ratio search_dates now r st e k s T
      hsd h1 h2 hratio hurl
  · intro hurl
    exact process_event_merge_skip_eq fuzz_ratio search_dates now r st e k s T
      hsd h1 h2 hratio hurl

/-- Witness for C4 at a concrete merge: record "Big Game 1/5/25 10:00 PM"
merging into an event of the same title at timestamp 1000, seen at score
1000 with extracted time 1200. -/
theorem c4_witness :
    process_event (fun a b => if a == b then 100 else 0) (fun _ => some 1200) 0
        ⟨"Big Game 1/5/25 10:00 PM", "http://new", []⟩
        initialState
        ⟨[("event:k", 1000)],
         [("event:k", CacheVal.valid
            { id := "eventh"
              title := "Big Game 1/5/25 10:00 PM"
              event_start_timestamp := 1000
              poster := none
              genres := ["Other Sports"]
              is_add_title_to_poster := false
              streams := [{ meta_id := "eventh"
                            name := "Big Game 1/5/25 10:00 PM"
                            url := "http://old"
                            source := "Combined Playlist"
                            is_working := true }] })]⟩ =
      ({ initialState with immediate_ops :=
          [CacheOp.set "event:k"
            (merged_event
              { id := "eventh"
                title := "Big Game 1/5/25 10:00 PM"
                event_start_timestamp := 1000
                poster := none
                genres := ["Other Sports"]
                is_add_title_to_poster := false
                streams := [{ meta_id := "eventh"
                              name := "Big Game 1/5/25 10:00 PM"
                              url := "http://old"
                              source := "Combined Playlist"
                              is_working := true }] }
              "Big Game 1/5/25 10:00 PM" "http://new")
            87400] },
       ⟨[("event:k", 1000)],
        [("event:k", CacheVal.valid
           (merged_event
             { id := "eventh"
               title := "Big Game 1/5/25 10:00 PM"
               event_start_timestamp := 1000
               poster := none
               genres := ["Other Sports"]
               is_add_title_to_poster := false
               streams := [{ meta_id := "eventh"
                             name := "Big Game 1/5/25 10:00 PM"
                             url := "http://old"
                             source := "Combined Playlist"
                             is_working := true }] }
             "Big Game 1/5/25 10:00 PM" "http://new"))]⟩) := by
  have h := (c4_merge_frame_effect (fun a b => if a == b then 100 else 0)
    (fun _ => some 1200) 0
    ⟨"Big Game 1/5/25 10:00 PM", "http://new", []⟩
    initialState
    { id := "eventh"
      title := "Big Game 1/5/25 10:00 PM"
      event_start_timestamp := 1000
      poster := none
      genres := ["Other Sports"]
      is_add_title_to_poster := false
      streams := [{ meta_id := "eventh"
                    name := "Big Game 1/5/25 10:00 PM"
                    url := "http://old"
                    source := "Combined Playlist"
                    is_working := true }] }
    "event:k" 1000 1200 (by decide) (by decide) (by decide)
    (by decide)).2.2.2.2.2.2.1 (by decide)
  simpa [initialState, merge_ttl] using h

/-- When the window query returns no candidate, the record is staged as a
brand-new event and the cache is untouched. -/
lemma process_event_no_candidate_eq
    (fuzz_ratio : String → String → Nat) (search_dates : String → Option Int)
    (now : Int) (r : ChannelRecord) (st : ParserState) (cache : EventCache)
    (T : Int)
    (hsd : search_dates (raw_name_of r) = some T)
    (hcand : event_candidates T cache.index = []) :
    process_event fuzz_ratio search_dates now r st cache =
      ({ st with event_list := st.event_list ++ [new_event_meta r T] },
       cache) := by
  simp [process_event, process_event_raw, hsd, hcand, findDuplicateEvent]

/-- C2: the candidates considered for merging an event extracted at time `T`
are exactly the indexed keys whose score lies in the closed window
`[T - 3600, T + 3600]`; a single candidate at `T + 3000` with fuzzy ratio at
or above the threshold is merged into; a candidate at `T + 4000` is never
merged into, even with an identical title (any ratio), the record being
staged as a new event instead; and with two qualifying candidates the engine
commits to the first one in index order, leaving the second untouched. -/
theorem c2_event_window_merge :
    (∀ (T : Int) (index : List (String × Int)) (k : String),
       k ∈ event_candidates T index ↔
         ∃ s : Int, (k, s) ∈ index ∧
           T - TIME_WINDOW_SECONDS ≤ s ∧ s ≤ T + TIME_WINDOW_SECONDS) ∧
    (∀ (fuzz_ratio : String → String → Nat)
       (search_dates : String → Option Int) (now : Int)
       (r : ChannelRecord) (st : ParserState)
       (e : MediaFusionEventsMetaData) (k : String) (T : Int),
       search_dates (raw_name_of r) = some T →
       FUZZY_MATCH_THRESHOLD ≤ fuzz_ratio (raw_name_of r) e.title →
       e.streams.any (fun x => x.url = r.url) = false →
       process_event fuzz_ratio search_dates now r st
           ⟨[(k, T + 3000)], [(k, CacheVal.valid e)]⟩ =
         ({ st with immediate_ops := st.immediate_ops ++
             [CacheOp.set k (merged_event e (raw_name_of r) r.url)
               (merge_ttl now e)] },
          ⟨[(k, T + 3000)],
           [(k, CacheVal.valid (merged_event e (raw_name_of r) r.url))]⟩)) ∧
    (∀ (fuzz_ratio : String → String → Nat)
       (search_dates : String → Option Int) (now : Int)
       (r : ChannelRecord) (st : ParserState)
       (e : MediaFusionEventsMetaData) (k : String) (T : Int),
       search_dates (raw_name_of r) = some T →
       process_event fuzz_ratio search_dates now r st
           ⟨[(k, T + 4000)], [(k, CacheVal.valid e)]⟩ =
         ({ st with event_list := st.event_list ++ [new_event_meta r T] },
          ⟨[(k, T + 4000)], [(k, CacheVal.valid e)]⟩)) ∧
    (∀ (fuzz_ratio : String → String → Nat)
       (search_dates : String → Option Int) (now : Int)
       (r : ChannelRecord) (st : ParserState)
       (e1 e2 : MediaFusionEventsMetaData) (k1 k2 : String) (s1 s2 T : Int),
       search_dates (raw_name_of r) = some T →
       T - TIME_WINDOW_SECONDS ≤ s1 → s1 ≤ T + TIME_WINDOW_SECONDS →
       T - TIME_WINDOW_SECONDS ≤ s2 → s2 ≤ T + TIME_WINDOW_SECONDS →
       FUZZY_MATCH_THRESHOLD ≤ fuzz_ratio (raw_name_of r) e1.title →
       FUZZY_MATCH_THRESHOLD ≤ fuzz_ratio (raw_name_of r) e2.title →
       e1.streams.any (fun x => x.url = r.url) = false →
       k1 ≠ k2 →
       process_event fuzz_ratio search_dates now r st
           ⟨[(k1, s1), (k2, s2)], [(k1, CacheVal.valid e1), (k2, CacheVal.valid e2)]⟩ =
         ({ st with immediate_ops := st.immediate_ops ++
             [CacheOp.set k1 (merged_event e1 (raw_name_of r) r.url)
               (merge_ttl now e1)] },
          ⟨[(k1, s1), (k2, s2)],
           [(k1, CacheVal.valid (merged_event e1 (raw_name_of r) r.url)),
            (k2, CacheVal.valid e2)]⟩)) := by
  refine ⟨?_, ?_, ?_, ?_⟩
  · intro T index k
    simp only [event_candidates, List.mem_map, List.mem_filter,
      Bool.and_eq_true, decide_eq_true_eq]
    constructor
    · rintro ⟨⟨k', s⟩, ⟨hmem, hlo, hhi⟩, rfl⟩
      exact ⟨s, hmem, hlo, hhi⟩
    · rintro ⟨s, hmem, hlo, hhi⟩
      exact ⟨(k, s), ⟨hmem, hlo, hhi⟩, rfl⟩
  · intro fuzz_ratio search_dates now r st e k T hsd hratio hurl
    exact process_event_merge_eq fuzz_ratio search_dates now r st e k
      (T + 3000) T hsd (by unfold TIME_WINDOW_SECONDS; omega)
      (by unfold TIME_WINDOW_SECONDS; omega) hratio hurl
  · intro fuzz_ratio search_dates now r st e k T hsd
    apply process_event_no_candidate_eq fuzz_ratio search_dates now r st
      _ T hsd
    have hno : decide ((4000 : Int) ≤ TIME_WINDOW_SECONDS) = false := by decide
    simp [event_candidates, List.filter, hno]
  · intro fuzz_ratio search_dates now r st e1 e2 k1 k2 s1 s2 T hsd
      hlo1 hhi1 hlo2 hhi2 hr1 hr2 hurl hk
    have hcand := event_candidates_pair_mem T s1 s2 k1 k2 hlo1 hhi1 hlo2 hhi2
    have hget : cacheGet ⟨[(k1, s1), (k2, s2)],
        [(k1, CacheVal.valid e1), (k2, CacheVal.valid e2)]⟩ k1 =
        some (CacheVal.valid e1) := by
      simp [cacheGet, List.lookup]
    have hfind := findDuplicateEvent_cons_valid_merge fuzz_ratio now
      (raw_name_of r) r.url k1 [k2] e1 st
      ⟨[(k1, s1), (k2, s2)], [(k1, CacheVal.valid e1), (k2, CacheVal.valid e2)]⟩
      hget hr1 hurl
    simp [process_event, process_event_raw, hsd, hcand, hfind,
      cacheSet, setAssoc, hk]

/-- Witness for C2: the key at score `T + 3000 = 4200` is a candidate for
`T = 1200`, and a concrete in-window record with an identical title merges
into it, the rewrite carrying TTL `4200 + 86400 = 90600`. -/
theorem c2_witness :
    "event:k" ∈ event_candidates 1200 [("event:k", 4200)] ∧
    process_event (fun a b => if a == b then 100 else 0) (fun _ => some 1200) 0
        ⟨"G 1/5/25 10:00", "http://new", []⟩ initialState
        ⟨[("event:k", 4200)],
         [("event:k", CacheVal.valid
            { id := "ev", title := "G 1/5/25 10:00",
              event_start_timestamp := 4200, poster := none,
              genres := ["Other Sports"], is_add_title_to_poster := false,
              streams := [] })]⟩ =
      ({ initialState with immediate_ops :=
          [CacheOp.set "event:k"
            (merged_event
              { id := "ev", title := "G 1/5/25 10:00",
                event_start_timestamp := 4200, poster := none,
                genres := ["Other Sports"], is_add_title_to_poster := false,
                streams := [] }
              "G 1/5/25 10:00" "http://new") 90600] },
       ⟨[("event:k", 4200)],
        [("event:k", CacheVal.valid
           (merged_event
             { id := "ev", title := "G 1/5/25 10:00",
               event_start_timestamp := 4200, poster := none,
               genres := ["Other Sports"], is_add_title_to_poster := false,
               streams := [] }
             "G 1/5/25 10:00" "http://new"))]⟩) := by
  constructor
  · exact (c2_event_window_merge.1 1200 [("event:k", 4200)] "event:k").mpr
      ⟨4200, by decide, by decide, by decide⟩
  · have h := c2_event_window_merge.2.1 (fun a b => if a == b then 100 else 0)
      (fun _ => some 1200) 0 ⟨"G 1/5/25 10:00", "http://new", []⟩ initialState
      { id := "ev", title := "G 1/5/25 10:00", event_start_timestamp := 4200,
        poster := none, genres := ["Other Sports"],
        is_add_title_to_poster := false, streams := [] }
      "event:k" 1200 (by decide) (by decide) (by decide)
    simpa [initialState, merge_ttl] using h

/-- Counterexample to C3 as stated: two channel-classified records carrying
the identical (normalized name, URL) pair `("X", "http://u")` are both
dropped by the short-name guard, which runs before the in-batch dedup
check, so the later occurrence is dropped without the skipped-duplicate
counter being incremented (final counter 0, not 1 per dropped occurrence). -/
theorem c3_counterexample :
    classifyRecord ⟨"X", "http://u", []⟩ = RecordClass.channel ∧
    channel_name_of ⟨"X", "http://u", []⟩ = "X" ∧
    (runRecords (fun _ _ => 0) (fun _ => none) 0 [] []
        [⟨"X", "http://u", []⟩, ⟨"X", "http://u", []⟩]
        (initialState, ⟨[], []⟩)).1 = initialState := by
  refine ⟨by decide, by decide, by decide⟩

/-- C3 as amended: for channel-classified records whose normalized name
passes the length guard (length at least 2), a record whose
(normalized name, URL) pair has already been seen in this run changes the
state exactly by incrementing the skipped-duplicate counter — nothing is
staged and the existing corpus is never consulted — and a first occurrence
records the pair so that every later identical occurrence is dropped this
way. -/
theorem c3_inbatch_dedup_amended
    (fuzz_ratio : String → String → Nat)
    (existing_tv_channels_in_db : List TVMetaProjection)
    (existing_stream_urls : List String)
    (r : ChannelRecord) (st : ParserState)
    (hlen : 2 ≤ (channel_name_of r).length) :
    (st.unique_channels_in_group.contains (channel_name_of r, r.url) = true →
      process_regular_channel fuzz_ratio existing_tv_channels_in_db
          existing_stream_urls r st =
        { st with skipped_duplicate_tv_channels_count :=
            st.skipped_duplicate_tv_channels_count + 1 }) ∧
    (st.unique_channels_in_group.contains (channel_name_of r, r.url) = false →
      (process_regular_channel fuzz_ratio existing_tv_channels_in_db
          existing_stream_urls r st).unique_channels_in_group =
        (channel_name_of r, r.url) :: st.unique_channels_in_group) := by
  have hnotlt : ¬ (channel_name_of r).length < 2 := by omega
  constructor
  · intro hseen
    have hseen' : (channel_name_of r, r.url) ∈ st.unique_channels_in_group := by
      simpa using hseen
    simp [process_regular_channel, hnotlt, hseen']
  · intro hnew
    have hnew' : (channel_name_of r, r.url) ∉ st.unique_channels_in_group := by
      simpa using hnew
    simp only [process_regular_channel, hnotlt, if_false]
    rw [if_neg (by simpa using hnew')]
    cases findChannelMatch fuzz_ratio (channel_name_of r)
        existing_tv_channels_in_db with
    | none => simp
    | some c =>
      by_cases hex : r.url ∈ existing_stream_urls
      · simp [hex]
      · simp [hex]

/-- Witness for C3 (amended): a second "ESPN HD" occurrence with the same
URL bumps only the skipped-duplicate counter, and a first occurrence records
the (normalized name, URL) pair. -/
theorem c3_witness :
    process_regular_channel (fun _ _ => 0) [] [] ⟨"ESPN HD", "http://u", []⟩
        { initialState with
          unique_channels_in_group := [("ESPN HD", "http://u")] } =
      { initialState with
        unique_channels_in_group := [("ESPN HD", "http://u")]
        skipped_duplicate_tv_channels_count := 1 } ∧
    (process_regular_channel (fun _ _ => 0) [] [] ⟨"ESPN HD", "http://u", []⟩
        initialState).unique_channels_in_group = [("ESPN HD", "http://u")] := by
  have hname : channel_name_of ⟨"ESPN HD", "http://u", []⟩ = "ESPN HD" := by
    decide
  constructor
  · have h := (c3_inbatch_dedup_amended (fun _ _ => 0) [] []
      ⟨"ESPN HD", "http://u", []⟩
      { initialState with
        unique_channels_in_group := [("ESPN HD", "http://u")] }
      (by decide)).1 (by rw [hname]; decide)
    simpa [initialState] using h
  · have h := (c3_inbatch_dedup_amended (fun _ _ => 0) [] []
      ⟨"ESPN HD", "http://u", []⟩ initialState (by decide)).2
      (by rw [hname]; decide)
    rw [h, hname]
    simp [initialState]

/-- Counterexample to C5 as stated: the name
"Boxing: Fury vs Smith Jan 5, 2025 10:00 PM ET" is NOT classified as an
event.  The date regex requires the four-digit year to follow the day after
a single `[, -]` character, so the comma-and-space in "Jan 5, 2025" fails
it (the time regex does match). -/
theorem c5_counterexample :
    classifyRecord ⟨"Boxing: Fury vs Smith Jan 5, 2025 10:00 PM ET",
        "http://stream.example/1", []⟩ = RecordClass.channel ∧
    dateSearch "Boxing: Fury vs Smith Jan 5, 2025 10:00 PM ET" = false ∧
    timeSearch "Boxing: Fury vs Smith Jan 5, 2025 10:00 PM ET" = true := by
  refine ⟨by decide, by decide, by decide⟩

/-- C5 as amended: a record (with a non-empty URL) is classified as an event
if and only if its stripped display name matches both the date-shaped regex
and the time-shaped regex — both must match, either alone is insufficient —
but the particular name "Boxing: Fury vs Smith Jan 5, 2025 10:00 PM ET"
fails the date regex and is classified as a regular channel. -/
theorem c5_classifier_amended :
    (∀ r : ChannelRecord, r.url ≠ "" →
       (classifyRecord r = RecordClass.event ↔
         dateSearch (raw_name_of r) = true ∧
         timeSearch (raw_name_of r) = true)) ∧
    classifyRecord ⟨"Boxing: Fury vs Smith Jan 5, 2025 10:00 PM ET",
        "http://stream.example/1", []⟩ = RecordClass.channel := by
  constructor
  · intro r hr
    simp only [classifyRecord, if_neg hr]
    by_cases h : isEventName (raw_name_of r) = true
    · rw [if_pos h]
      have hb := h
      unfold isEventName at hb
      rw [Bool.and_eq_true] at hb
      exact ⟨fun _ => hb, fun _ => rfl⟩
    · rw [if_neg h]
      have hb : ¬(dateSearch (raw_name_of r) = true ∧
          timeSearch (raw_name_of r) = true) := by
        intro hand
        exact h (by unfold isEventName; rw [hand.1, hand.2]; rfl)
      exact ⟨fun hc => RecordClass.noConfusion hc, fun hand => absurd hand hb⟩
  · decide

/-- Witness for C5 (amended): a name carrying both a slash date and a time
is classified as an event, hence matches both regexes. -/
theorem c5_witness :
    dateSearch (raw_name_of ⟨"UFC Fight 1/5/2025 10:00 PM", "http://u", []⟩) =
      true ∧
    timeSearch (raw_name_of ⟨"UFC Fight 1/5/2025 10:00 PM", "http://u", []⟩) =
      true :=
  (c5_classifier_amended.1 ⟨"UFC Fight 1/5/2025 10:00 PM", "http://u", []⟩
    (by decide)).mp (by decide)

/-- An absent cache entry is skipped and the loop continues. -/
lemma findDuplicateEvent_cons_none
    (fuzz_ratio : String → String → Nat) (now : Int) (raw_name url : String)
    (k : String) (rest : List String) (st : ParserState) (cache : EventCache)
    (hget : cacheGet cache k = none) :
    findDuplicateEvent fuzz_ratio now raw_name url (k :: rest) st cache =
      findDuplicateEvent fuzz_ratio now raw_name url rest st cache := by
  simp [findDuplicateEvent, hget]

/-- A malformed cache entry makes the loop raise. -/
lemma findDuplicateEvent_cons_malformed
    (fuzz_ratio : String → String → Nat) (now : Int) (raw_name url : String)
    (k : String) (rest : List String) (st : ParserState) (cache : EventCache)
    (hget : cacheGet cache k = some CacheVal.malformed) :
    findDuplicateEvent fuzz_ratio now raw_name url (k :: rest) st cache =
      .error () := by
  simp [findDuplicateEvent, hget]

/-- A candidate below the fuzzy threshold is passed over. -/
lemma findDuplicateEvent_cons_nomatch
    (fuzz_ratio : String → String → Nat) (now : Int) (raw_name url : String)
    (k : String) (rest : List String) (e : MediaFusionEventsMetaData)
    (st : ParserState) (cache : EventCache)
    (hget : cacheGet cache k = some (CacheVal.valid e))
    (hratio : ¬ FUZZY_MATCH_THRESHOLD ≤ fuzz_ratio raw_name e.title) :
    findDuplicateEvent fuzz_ratio now raw_name url (k :: rest) st cache =
      findDuplicateEvent fuzz_ratio now raw_name url rest st cache := by
  simp [findDuplicateEvent, hget, if_neg hratio]

/-- The duplicate-search loop issues at most one immediate write: either it
leaves the per-record write trace unchanged, or it appends exactly one
single-key `set` rewriting a merged existing event. -/
lemma findDuplicateEvent_ops
    (fuzz_ratio : String → String → Nat) (now : Int) (raw_name url : String) :
    ∀ (keys : List String) (st : ParserState) (cache : EventCache)
      (b : Bool) (st' : ParserState) (cache' : EventCache),
      findDuplicateEvent fuzz_ratio now raw_name url keys st cache =
        .ok (b, st', cache') →
      st'.immediate_ops = st.immediate_ops ∨
        ∃ (k : String) (e : MediaFusionEventsMetaData),
          st'.immediate_ops = st.immediate_ops ++
            [CacheOp.set k (merged_event e raw_name url) (merge_ttl now e)]
  | [], st, cache, b, st', cache', h => by
    simp [findDuplicateEvent] at h
    exact Or.inl (by rw [h.2.1])
  | k :: rest, st, cache, b, st', cache', h => by
    cases hget : cacheGet cache k with
    | none =>
      rw [findDuplicateEvent_cons_none fuzz_ratio now raw_name url k rest
        st cache hget] at h
      exact findDuplicateEvent_ops fuzz_ratio now raw_name url rest st cache
        b st' cache' h
    | some v =>
      cases v with
      | malformed =>
        rw [findDuplicateEvent_cons_malformed fuzz_ratio now raw_name url k
          rest st cache hget] at h
        cases h
      | valid e =>
        by_cases hratio : FUZZY_MATCH_THRESHOLD ≤ fuzz_ratio raw_name e.title
        · by_cases hurl : e.streams.any (fun s => s.url = url) = true
          · rw [findDuplicateEvent_cons_valid_skip fuzz_ratio now raw_name url
              k rest e st cache hget hratio hurl] at h
            cases h
            exact Or.inl rfl
          · rw [findDuplicateEvent_cons_valid_merge fuzz_ratio now raw_name url
              k rest e st cache hget hratio (by simpa using hurl)] at h
            cases h
            exact Or.inr ⟨k, e, rfl⟩
        · rw [findDuplicateEvent_cons_nomatch fuzz_ratio now raw_name url k
            rest e st cache hget hratio] at h
          exact findDuplicateEvent_ops fuzz_ratio now raw_name url rest st cache
            b st' cache' h

/-- Per-record event processing appends either nothing or exactly one
single-key merge `set` to the immediate write trace; in particular the
new-event path and the index additions never write during per-record
processing. -/
lemma process_event_ops (fuzz_ratio : String → String → Nat)
    (search_dates : String → Option Int) (now : Int)
    (r : ChannelRecord) (st : ParserState) (cache : EventCache) :
    ∃ ext, (process_event fuzz_ratio search_dates now r st cache).1.immediate_ops =
        st.immediate_ops ++ ext ∧
      (ext = [] ∨
        ∃ (k : String) (e : MediaFusionEventsMetaData),
          ext = [CacheOp.set k (merged_event e (raw_name_of r) r.url)
            (merge_ttl now e)]) := by
  cases hsd : search_dates (raw_name_of r) with
  | none =>
    exact ⟨[], by simp [process_event, process_event_raw, hsd], Or.inl rfl⟩
  | some T =>
    cases hfind : findDuplicateEvent fuzz_ratio now (raw_name_of r) r.url
        (event_candidates T cache.index) st cache with
    | error u =>
      cases u
      exact ⟨[], by simp [process_event, process_event_raw, hsd, hfind],
        Or.inl rfl⟩
    | ok res =>
      obtain ⟨b, st', cache'⟩ := res
      have hops := findDuplicateEvent_ops fuzz_ratio now (raw_name_of r) r.url
        (event_candidates T cache.index) st cache b st' cache' hfind
      cases hops with
      | inl heq =>
        refine ⟨[], ?_, Or.inl rfl⟩
        cases b <;>
          simp [process_event, process_event_raw, hsd, hfind, heq]
      | inr hone =>
        obtain ⟨k, e, heq⟩ := hone
        refine ⟨_, ?_, Or.inr ⟨k, e, rfl⟩⟩
        cases b <;>
          simp [process_event, process_event_raw, hsd, hfind, heq]

/-- Counterexample to C6 as stated: a record that merges into an existing
cached event issues a cache `set` immediately during per-record processing,
not in the end-of-run pipeline — the run's immediate write trace is
non-empty. -/
theorem c6_counterexample :
    ((run (fun a b => if a == b then 100 else 0) (fun _ => some 1000)
        (fun _ => [⟨"Game 1/5/25 10:00", "http://new", []⟩]) 0
        [("http://src/pl.m3u", FetchOutcome.ok 200 "")] [] []
        ⟨[("event:k", 1000)],
         [("event:k", CacheVal.valid
            { id := "ev", title := "Game 1/5/25 10:00",
              event_start_timestamp := 900, poster := none,
              genres := ["Other Sports"], is_add_title_to_poster := false,
              streams := [{ meta_id := "ev", name := "old",
                            url := "http://old", source := "Combined Playlist",
                            is_working := true }] })]⟩).toOption.map
      fun res => res.final.immediate_ops.isEmpty) = some false := by
  decide

/-- C6 as amended: the end-of-run pipeline is assembled once, from the
staged `event_list`, and it is the only place where new-event `set`s and all
index `zadd`s are issued; however, per-record processing of a merging event
record issues an immediate single-key `set` (at most one per record), and
channel records never write to the event cache. -/
theorem c6_batched_writes_amended :
    (∀ (fuzz_ratio : String → String → Nat)
       (search_dates : String → Option Int)
       (decode : String → List ChannelRecord) (now : Int)
       (sources : List (String × FetchOutcome))
       (existing_tv_channels_in_db : List TVMetaProjection)
       (existing_stream_urls : List String) (cache : EventCache)
       (res : RunResult),
       run fuzz_ratio search_dates decode now sources
           existing_tv_channels_in_db existing_stream_urls cache = .ok res →
       res.pipeline_ops = buildEventPipeline now res.final.event_list) ∧
    (∀ (fuzz_ratio : String → String → Nat)
       (search_dates : String → Option Int) (now : Int)
       (r : ChannelRecord) (st : ParserState) (cache : EventCache),
       ∃ ext,
         (process_event fuzz_ratio search_dates now r st cache).1.immediate_ops =
           st.immediate_ops ++ ext ∧
         (ext = [] ∨
           ∃ (k : String) (e : MediaFusionEventsMetaData),
             ext = [CacheOp.set k (merged_event e (raw_name_of r) r.url)
               (merge_ttl now e)])) ∧
    (∀ (fuzz_ratio : String → String → Nat)
       (existing_tv_channels_in_db : List TVMetaProjection)
       (existing_stream_urls : List String)
       (r : ChannelRecord) (st : ParserState),
       (process_regular_channel fuzz_ratio existing_tv_channels_in_db
           existing_stream_urls r st).immediate_ops = st.immediate_ops) := by
  refine ⟨?_, ?_, ?_⟩
  · intro fuzz_ratio search_dates decode now sources exch exurls cache res h
    unfold run at h
    cases hg : generate_combined_content sources with
    | error u => cases u; rw [hg] at h; cases h
    | ok content =>
      rw [hg] at h
      cases h
      rfl
  · exact process_event_ops
  · intro fuzz_ratio exch exurls r st
    unfold process_regular_channel
    by_cases h1 : (channel_name_of r).length < 2
    · rw [if_pos h1]
    · rw [if_neg h1]
      by_cases h2 : st.unique_channels_in_group.contains
          (channel_name_of r, r.url) = true
      · rw [if_pos h2]
      · rw [if_neg h2]
        cases hm : findChannelMatch fuzz_ratio (channel_name_of r) exch with
        | none => simp [hm]
        | some c =>
          by_cases h4 : r.url ∈ exurls
          · simp [hm, h4]
          · simp [hm, h4]

/-- Witness for C6 (amended): an empty-source run succeeds and its pipeline
equals the one-shot build from its staged event list. -/
theorem c6_witness :
    (RunResult.mk initialState ⟨[], []⟩ []).pipeline_ops =
      buildEventPipeline 0 (RunResult.mk initialState ⟨[], []⟩ []).final.event_list :=
  c6_batched_writes_amended.1 (fun _ _ => 0) (fun _ => none) (fun _ => []) 0
    [] [] [] ⟨[], []⟩ (RunResult.mk initialState ⟨[], []⟩ []) (by rfl)

/-- When every fetched response has a non-error status, the fetch loop
succeeds (request-level failures are simply skipped). -/
lemma fetchLoop_ok :
    ∀ sources : List (String × FetchOutcome),
      (∀ p ∈ sources, ∀ (status : Nat) (text : String),
        p.2 = FetchOutcome.ok status text → status < 400) →
      ∃ body, fetchLoop sources = .ok body
  | [], _ => ⟨"", rfl⟩
  | (u, o) :: rest, h => by
    cases o with
    | requestError =>
      obtain ⟨body, hb⟩ := fetchLoop_ok rest
        fun p hp => h p (List.mem_cons_of_mem _ hp)
      exact ⟨body, by simp [fetchLoop, hb]⟩
    | ok status text =>
      have hst : status < 400 :=
        h (u, FetchOutcome.ok status text) (List.mem_cons_self _ _)
          status text rfl
      obtain ⟨body, hb⟩ := fetchLoop_ok rest
        fun p hp => h p (List.mem_cons_of_mem _ hp)
      have hif : ¬ 400 ≤ status := by omega
      exact ⟨sourceLines u text ++ body, by simp [fetchLoop, hb, hif]⟩

/-- Counterexample to C7 as stated: a source answering with an HTTP error
status (500) makes `raise_for_status` raise `httpx.HTTPStatusError`, which
is not a subclass of the caught `httpx.RequestError`; the error escapes
`_generate_combined_content` and propagates out of the run instead of the
source being skipped. -/
theorem c7_counterexample :
    generate_combined_content
        [("http://a/pl.m3u", FetchOutcome.ok 500 "Internal Error")] =
      .error () ∧
    run (fun _ _ => 0) (fun _ => none) (fun _ => []) 0
        [("http://a/pl.m3u", FetchOutcome.ok 500 "Internal Error")] [] []
        ⟨[], []⟩ = .error () := by
  exact ⟨rfl, rfl⟩

/-- C7 as amended: a source failing with a request-level error (timeout,
connection failure) is logged and skipped, and the run's combined content is
exactly the one obtained without that source — every remaining source is
still fetched and processed; but a source answering with an HTTP error
status raises an uncaught status error that propagates out of the run.
Absent error statuses, content generation always succeeds. -/
theorem c7_fetch_errors_amended :
    (∀ (pre post : List (String × FetchOutcome)) (u : String),
       fetchLoop (pre ++ (u, FetchOutcome.requestError) :: post) =
         fetchLoop (pre ++ post)) ∧
    (∀ sources : List (String × FetchOutcome),
       (∀ p ∈ sources, ∀ (status : Nat) (text : String),
         p.2 = FetchOutcome.ok status text → status < 400) →
       ∃ content, generate_combined_content sources = .ok content) := by
  constructor
  · intro pre post u
    induction pre with
    | nil => rfl
    | cons hd tl ih =>
      obtain ⟨hu, ho⟩ := hd
      cases ho with
      | requestError => simpa [fetchLoop] using ih
      | ok status text =>
        by_cases hs : 400 ≤ status
        · simp [fetchLoop, hs]
        · simp [fetchLoop, hs, ih]
  · intro sources h
    obtain ⟨body, hb⟩ := fetchLoop_ok sources h
    exact ⟨"#EXTM3U\n" ++ body, by simp [generate_combined_content, hb]⟩

/-- Witness for C7 (amended): dropping a timed-out second source leaves the
first source's contribution intact, and a run over one healthy and one
unreachable source still produces content. -/
theorem c7_witness :
    fetchLoop [("http://a/x.m3u", FetchOutcome.ok 200 "#EXTINF:-1,Ch\nhttp://s1\n"),
               ("http://b/y.m3u", FetchOutcome.requestError)] =
      fetchLoop [("http://a/x.m3u", FetchOutcome.ok 200 "#EXTINF:-1,Ch\nhttp://s1\n")] ∧
    ∃ content,
      generate_combined_content
        [("http://a/x.m3u", FetchOutcome.ok 200 "#EXTINF:-1,Ch\nhttp://s1\n"),
         ("http://b/y.m3u", FetchOutcome.requestError)] = .ok content := by
  constructor
  · exact c7_fetch_errors_amended.1
      [("http://a/x.m3u", FetchOutcome.ok 200 "#EXTINF:-1,Ch\nhttp://s1\n")] []
      "http://b/y.m3u"
  · refine c7_fetch_errors_amended.2 _ ?_
    intro p hp status text he
    simp only [List.mem_cons, List.mem_singleton] at hp
    rcases hp with h1 | h2 | h3
    · rw [h1] at he
      cases he
      omega
    · rw [h2] at he
      exact FetchOutcome.noConfusion he
    · cases h3

/-- C8: per-record isolation.  An event-classified record whose date
extraction fails is dropped with the state unchanged, so the run over the
surrounding records is identical to the run without it; any failure of the
event pipeline body (bad date text, malformed cache entry) is caught by the
handler, which drops the record and preserves state and cache; and the
record loop always continues with the remaining records after processing
any record. -/
theorem c8_per_record_isolation :
    (∀ (fuzz_ratio : String → String → Nat)
       (search_dates : String → Option Int) (now : Int)
       (existing_tv_channels_in_db : List TVMetaProjection)
       (existing_stream_urls : List String) (r : ChannelRecord)
       (xs ys : List ChannelRecord) (acc : ParserState × EventCache),
       classifyRecord r = RecordClass.event →
       search_dates (raw_name_of r) = none →
       runRecords fuzz_ratio search_dates now existing_tv_channels_in_db
           existing_stream_urls (xs ++ r :: ys) acc =
         runRecords fuzz_ratio search_dates now existing_tv_channels_in_db
           existing_stream_urls (xs ++ ys) acc) ∧
    (∀ (fuzz_ratio : String → String → Nat)
       (search_dates : String → Option Int) (now : Int)
       (r : ChannelRecord) (st : ParserState) (cache : EventCache),
       process_event_raw fuzz_ratio search_dates now r st cache = .error () →
       process_event fuzz_ratio search_dates now r st cache = (st, cache)) ∧
    (∀ (fuzz_ratio : String → String → Nat)
       (search_dates : String → Option Int) (now : Int)
       (existing_tv_channels_in_db : List TVMetaProjection)
       (existing_stream_urls : List String) (r : ChannelRecord)
       (rs : List ChannelRecord) (acc : ParserState × EventCache),
       runRecords fuzz_ratio search_dates now existing_tv_channels_in_db
           existing_stream_urls (r :: rs) acc =
         runRecords fuzz_ratio search_dates now existing_tv_channels_in_db
           existing_stream_urls rs
           (processRecord fuzz_ratio search_dates now
             existing_tv_channels_in_db existing_stream_urls acc r)) := by
  refine ⟨?_, ?_, ?_⟩
  · intro fuzz_ratio search_dates now exch exurls r xs ys acc hclass hsd
    have hstep : ∀ a : ParserState × EventCache,
        processRecord fuzz_ratio search_dates now exch exurls a r = a := by
      intro a
      simp [processRecord, hclass, process_event, process_event_raw, hsd]
    unfold runRecords
    rw [List.foldl_append, List.foldl_append, List.foldl_cons, hstep]
  · intro fuzz_ratio search_dates now r st cache h
    unfold process_event
    rw [h]
  · intro fuzz_ratio search_dates now exch exurls r rs acc
    rfl

/-- Witness for C8: a run over three records where the middle one is an
event whose date search fails equals the run over the two good records. -/
theorem c8_witness :
    runRecords (fun _ _ => 0) (fun _ => none) 0 [] []
        [⟨"ESPN", "http://e", []⟩, ⟨"Bad Event 1/5/25 10:00", "http://b", []⟩,
         ⟨"News", "http://n", []⟩]
        (initialState, ⟨[], []⟩) =
      runRecords (fun _ _ => 0) (fun _ => none) 0 [] []
        [⟨"ESPN", "http://e", []⟩, ⟨"News", "http://n", []⟩]
        (initialState, ⟨[], []⟩) :=
  c8_per_record_isolation.1 (fun _ _ => 0) (fun _ => none) 0 [] []
    ⟨"Bad Event 1/5/25 10:00", "http://b", []⟩
    [⟨"ESPN", "http://e", []⟩] [⟨"News", "http://n", []⟩]
    (initialState, ⟨[], []⟩) (by decide) rfl

/-- C9: the derived channel id is a pure deterministic function of the
normalized channel name — any two records with the same normalized name,
in the same run or in different runs, get the same id — and a later run
whose corpus already contains a channel with a fuzzy-matching title merges
instead of staging a second new channel. -/
theorem c9_channel_id_deterministic :
    (∀ r1 r2 : ChannelRecord, channel_name_of r1 = channel_name_of r2 →
       channel_id_of r1 = channel_id_of r2) ∧
    (∀ (fuzz_ratio : String → String → Nat)
       (existing_stream_urls : List String) (st : ParserState)
       (r : ChannelRecord) (c : TVMetaProjection),
       2 ≤ (channel_name_of r).length →
       st.unique_channels_in_group.contains (channel_name_of r, r.url) = false →
       FUZZY_MATCH_THRESHOLD ≤ fuzz_ratio (channel_name_of r) c.title →
       (process_regular_channel fuzz_ratio [c] existing_stream_urls r st).channel_batch =
         st.channel_batch ∧
       (process_regular_channel fuzz_ratio [c] existing_stream_urls r st).added_new_tv_channels_count =
         st.added_new_tv_channels_count) := by
  constructor
  · intro r1 r2 h
    unfold channel_id_of
    rw [h]
  · intro fuzz_ratio exurls st r c hlen hnew hratio
    unfold process_regular_channel
    rw [if_neg (by omega), if_neg (by simpa using hnew)]
    simp only [findChannelMatch, if_pos hratio]
    by_cases hex : r.url ∈ exurls
    · simp [hex]
    · simp [hex]

/-- Witness for C9: two raw spellings normalizing to "ESPN HD" share one id,
and importing "ESPN HD" against a corpus already holding it stages no new
channel. -/
theorem c9_witness :
    channel_id_of ⟨"ESPN  HD", "http://u1", []⟩ =
      channel_id_of ⟨" ESPN HD ", "http://u2", []⟩ ∧
    (process_regular_channel (fun a b => if a == b then 100 else 0) 
        [⟨"tv.x", "ESPN HD"⟩] [] ⟨"ESPN HD", "http://u", []⟩
        initialState).channel_batch = [] ∧
    (process_regular_channel (fun a b => if a == b then 100 else 0)
        [⟨"tv.x", "ESPN HD"⟩] [] ⟨"ESPN HD", "http://u", []⟩
        initialState).added_new_tv_channels_count = 0 := by
  have h2 := c9_channel_id_deterministic.2
    (fun a b => if a == b then 100 else 0) [] initialState
    ⟨"ESPN HD", "http://u", []⟩ ⟨"tv.x", "ESPN HD"⟩
    (by decide) (by decide) (by decide)
  exact ⟨c9_channel_id_deterministic.1 ⟨"ESPN  HD", "http://u1", []⟩
    ⟨" ESPN HD ", "http://u2", []⟩ (by decide),
    by rw [h2.1]; rfl, by rw [h2.2]; rfl⟩

/-- C10: a parsed record with an empty URL is skipped before classification:
it is dispatched neither to the event path nor to the channel path, and
processing it leaves the whole accumulator — counters, seen-set, batches,
event list and cache — unchanged. -/
theorem c10_empty_url_skipped
    (fuzz_ratio : String → String → Nat)
    (search_dates : String → Option Int) (now : Int)
    (existing_tv_channels_in_db : List TVMetaProjection)
    (existing_stream_urls : List String)
    (acc : ParserState × EventCache) (r : ChannelRecord)
    (h : r.url = "") :
    classifyRecord r = RecordClass.skippedNoUrl ∧
    processRecord fuzz_ratio search_dates now existing_tv_channels_in_db
        existing_stream_urls acc r = acc := by
  constructor
  · simp [classifyRecord, h]
  · simp [processRecord, classifyRecord, h]

/-- Witness for C10: a record named "ESPN" with an empty URL is skipped and
the accumulator is untouched. -/
theorem c10_witness :
    classifyRecord ⟨"ESPN", "", []⟩ = RecordClass.skippedNoUrl ∧
    processRecord (fun _ _ => 0) (fun _ => none) 0 [] []
        (initialState, ⟨[], []⟩) ⟨"ESPN", "", []⟩ =
      (initialState, ⟨[], []⟩) :=
  c10_empty_url_skipped (fun _ _ => 0) (fun _ => none) 0 [] []
    (initialState, ⟨[], []⟩) ⟨"ESPN", "", []⟩ rfl

/-- C1: no event cache entry is ever written with a non-positive TTL.  At
end of run every `set` in the pipeline carries a strictly positive TTL and
an event starting more than 24 hours in the past produces no writes at all;
on the merge path, the rewrite of an existing event that is still live in
the cache (its expiry `event_start_timestamp + 86400` has not yet passed)
carries a strictly positive TTL as well. -/
theorem c1_event_cache_ttl_positive :
    (∀ (now : Int) (event_list : List MediaFusionEventsMetaData)
       (k : String) (v : MediaFusionEventsMetaData) (t : Int),
       CacheOp.set k v t ∈ buildEventPipeline now event_list → 0 < t) ∧
    (∀ (now : Int) (event : MediaFusionEventsMetaData),
       (86400 : Int) < now - event.event_start_timestamp →
       eventOps now event = []) ∧
    (∀ (fuzz_ratio : String → String → Nat)
       (search_dates : String → Option Int) (now : Int)
       (r : ChannelRecord) (st : ParserState)
       (e : MediaFusionEventsMetaData) (k : String) (s T : Int),
       search_dates (raw_name_of r) = some T →
       T - TIME_WINDOW_SECONDS ≤ s → s ≤ T + TIME_WINDOW_SECONDS →
       FUZZY_MATCH_THRESHOLD ≤ fuzz_ratio (raw_name_of r) e.title →
       e.streams.any (fun x => x.url = r.url) = false →
       now < e.event_start_timestamp + 86400 →
       (process_event fuzz_ratio search_dates now r st
           ⟨[(k, s)], [(k, CacheVal.valid e)]⟩).1.immediate_ops =
         st.immediate_ops ++
           [CacheOp.set k (merged_event e (raw_name_of r) r.url)
             (merge_ttl now e)] ∧
       0 < merge_ttl now e) := by
  refine ⟨?_, ?_, ?_⟩
  · intro now event_list k v t h
    simp only [buildEventPipeline, List.mem_flatMap] at h
    obtain ⟨e, _, hop⟩ := h
    unfold eventOps at hop
    by_cases httl : 0 < e.event_start_timestamp - now + 86400
    · rw [if_pos httl] at hop
      simp only [List.mem_cons, List.mem_map] at hop
      rcases hop with h1 | h2 | h3
      · cases h1
        exact httl
      · cases h2
      · obtain ⟨g, _, heq⟩ := h3
        cases heq
    · rw [if_neg httl] at hop
      cases hop
  · intro now event h
    unfold eventOps
    rw [if_neg (by omega)]
  · intro fuzz_ratio search_dates now r st e k s T hsd h1 h2 hratio hurl hlive
    have hm := process_event_merge_eq fuzz_ratio search_dates now r st e k s T
      hsd h1 h2 hratio hurl
    constructor
    · rw [hm]
    · unfold merge_ttl
      omega

/-- Witness for C1: a pipeline write at `now = 500` for an event starting at
1000 has TTL 86900 > 0; an event starting at 0 seen at `now = 100000`
(more than 24 hours later) is dropped; and a live-event merge at `now = 0`
rewrites with TTL 87400 > 0. -/
theorem c1_witness :
    (0 : Int) < 86900 ∧
    eventOps 100000
      { id := "e0", title := "Old 1/1/25 1:00", event_start_timestamp := 0,
        poster := none, genres := ["G"], is_add_title_to_poster := false,
        streams := [] } = [] ∧
    0 < merge_ttl 0
      { id := "eventh"
        title := "Big Game 1/5/25 10:00 PM"
        event_start_timestamp := 1000
        poster := none
        genres := ["Other Sports"]
        is_add_title_to_poster := false
        streams := [{ meta_id := "eventh"
                      name := "Big Game 1/5/25 10:00 PM"
                      url := "http://old"
                      source := "Combined Playlist"
                      is_working := true }] } := by
  refine ⟨?_, ?_, ?_⟩
  · exact c1_event_cache_ttl_positive.1 500
      [{ id := "e1", title := "T 1/5/25 9:00", event_start_timestamp := 1000,
         poster := none, genres := [], is_add_title_to_poster := false,
         streams := [] }]
      "event:e1"
      { id := "e1", title := "T 1/5/25 9:00", event_start_timestamp := 1000,
        poster := none, genres := [], is_add_title_to_poster := false,
        streams := [] }
      86900 (by decide)
  · exact c1_event_cache_ttl_positive.2.1 100000
      { id := "e0", title := "Old 1/1/25 1:00", event_start_timestamp := 0,
        poster := none, genres := ["G"], is_add_title_to_poster := false,
        streams := [] } (by decide)
  · exact (c1_event_cache_ttl_positive.2.2
      (fun a b => if a == b then 100 else 0) (fun _ => some 1200) 0
      ⟨"Big Game 1/5/25 10:00 PM", "http://new", []⟩
      initialState
      { id := "eventh"
        title := "Big Game 1/5/25 10:00 PM"
        event_start_timestamp := 1000
        poster := none
        genres := ["Other Sports"]
        is_add_title_to_poster := false
        streams := [{ meta_id := "eventh"
                      name := "Big Game 1/5/25 10:00 PM"
                      url := "http://old"
                      source := "Combined Playlist"
                      is_working := true }] }
      "event:k" 1000 1200 (by decide) (by decide) (by decide) (by decide)
      (by decide) (by decide)).2
